import Mathlib

/-!
Verification of the Payvlo GST calculator core
(`src/lib/gst/calculator.ts`) against its specification.

JavaScript numbers are modelled as exact rationals (`ℚ`).
`parseFloat(x.toFixed(2))` is modelled as rounding to 2 decimal places
with ties away from zero (the ECMAScript `toFixed` tie rule applied to
the exact value), and `Math.round` as flooring of `x + 1/2`
(ties toward positive infinity), both per the ECMAScript definitions.
-/

namespace Payvlo

/-- Round a rational to the nearest integer, ties away from zero
(the tie-breaking rule of `toFixed`). -/
def roundHalfAway (x : ℚ) : ℤ :=
  if 0 ≤ x then ⌊x + 1 / 2⌋ else -⌊-x + 1 / 2⌋

/-- Model of `parseFloat(x.toFixed(2))`: round to 2 decimal places,
ties away from zero. -/
def round2 (x : ℚ) : ℚ :=
  (roundHalfAway (x * 100) : ℚ) / 100

/-- JavaScript `Math.round`: nearest integer, ties toward `+∞`. -/
def jsRound (x : ℚ) : ℤ := ⌊x + 1 / 2⌋

/-- The fixed set of legal GST rates (`GST_RATES` in the source). -/
def GST_RATES : List ℚ := [0, 5, 12, 18, 28]

/-- Result object of `calculateGst` (`GstCalculation` in the source). -/
structure GstCalculation where
  taxable_amount : ℚ
  gst_rate : ℚ
  cgst_rate : ℚ
  sgst_rate : ℚ
  igst_rate : ℚ
  cess_rate : ℚ
  cgst_amount : ℚ
  sgst_amount : ℚ
  igst_amount : ℚ
  cess_amount : ℚ
  total_tax : ℚ
  total_amount : ℚ
  deriving Repr, DecidableEq

/-- Embedding of `calculateGst(taxableAmount, gstRate, cessRate, isInterState)`.
A thrown `Error` is modelled as `Except.error`. -/
def calculateGst (taxableAmount gstRate cessRate : ℚ) (isInterState : Bool) :
    Except String GstCalculation :=
  if gstRate ∈ GST_RATES then
    let totalGstAmount := taxableAmount * gstRate / 100
    let cessAmount := taxableAmount * cessRate / 100
    let cgstAmount := if isInterState then 0 else totalGstAmount / 2
    let sgstAmount := if isInterState then 0 else totalGstAmount / 2
    let igstAmount := if isInterState then totalGstAmount else 0
    let totalTax := cgstAmount + sgstAmount + igstAmount + cessAmount
    let totalAmount := taxableAmount + totalTax
    Except.ok
      { taxable_amount := round2 taxableAmount
        gst_rate := gstRate
        cgst_rate := if isInterState then 0 else gstRate / 2
        sgst_rate := if isInterState then 0 else gstRate / 2
        igst_rate := if isInterState then gstRate else 0
        cess_rate := cessRate
        cgst_amount := round2 cgstAmount
        sgst_amount := round2 sgstAmount
        igst_amount := round2 igstAmount
        cess_amount := round2 cessAmount
        total_tax := round2 totalTax
        total_amount := round2 totalAmount }
  else
    Except.error "Invalid GST rate. Must be one of: 0, 5, 12, 18, 28"

/-- Projects a successful `calculateGst` result. -/
def okGst : Except String GstCalculation → Option GstCalculation
  | Except.ok r => some r
  | Except.error _ => none

example :
    (okGst (calculateGst 1000 18 0 false)).map GstCalculation.cgst_amount =
      some 90 := by
  norm_num [calculateGst, GST_RATES, okGst, round2, roundHalfAway]

example :
    (okGst (calculateGst 1 5 0 false)).map GstCalculation.cgst_amount =
      some (3 / 100) := by
  norm_num [calculateGst, GST_RATES, okGst, round2, roundHalfAway]

lemma round2_zero : round2 0 = 0 := by
  norm_num [round2, roundHalfAway]

lemma mem_GST_RATES_18 : (18 : ℚ) ∈ GST_RATES := by
  simp [GST_RATES]

/-- C1: the CGST/SGST/IGST split of `calculateGst`, amended: every monetary
field carries the final 2-decimal rounding, so the halves are
`round2 (amount * rate / 200)` rather than the raw `amount * rate / 200`. -/
theorem calculateGst_tax_split (amount rate cess : ℚ) (h : rate ∈ GST_RATES) :
    (∃ r, calculateGst amount rate cess false = Except.ok r ∧
      r.cgst_amount = round2 (amount * rate / 200) ∧
      r.sgst_amount = round2 (amount * rate / 200) ∧
      r.cgst_amount = r.sgst_amount ∧
      r.igst_amount = 0 ∧
      r.cgst_rate = rate / 2 ∧ r.sgst_rate = rate / 2 ∧ r.igst_rate = 0) ∧
    (∃ r, calculateGst amount rate cess true = Except.ok r ∧
      r.igst_amount = round2 (amount * rate / 100) ∧
      r.cgst_amount = 0 ∧ r.sgst_amount = 0 ∧
      r.cgst_rate = 0 ∧ r.sgst_rate = 0 ∧ r.igst_rate = rate) := by
  have hhalf : amount * rate / 100 / 2 = amount * rate / 200 := by ring
  constructor
  · simp only [calculateGst, if_pos h]
    refine ⟨_, rfl, ?_, ?_, ?_, ?_, ?_, ?_, ?_⟩ <;>
      simp [hhalf, round2_zero]
  · simp only [calculateGst, if_pos h]
    refine ⟨_, rfl, ?_, ?_, ?_, ?_, ?_, ?_⟩ <;>
      simp [round2_zero]

/-- C1 counterexample: for `amount = 1`, `rate = 5`, intra-state, the
returned `cgst_amount` is `0.03` (already rounded), which differs from the
raw half `amount * rate / 200 = 0.025` claimed by the spec sentence. -/
theorem calculateGst_tax_split_counterexample :
    (okGst (calculateGst 1 5 0 false)).map GstCalculation.cgst_amount =
        some (3 / 100) ∧
      (3 / 100 : ℚ) ≠ 1 * 5 / 200 := by
  constructor
  · norm_num [calculateGst, GST_RATES, okGst, round2, roundHalfAway]
  · norm_num

/-- C1 witness: the amended split theorem instantiated at
`amount = 1000`, `rate = 18`, `cess = 0`. -/
theorem calculateGst_tax_split_witness :
    (18 : ℚ) ∈ GST_RATES ∧
      (∃ r, calculateGst 1000 18 0 false = Except.ok r ∧
        r.cgst_amount = round2 (1000 * 18 / 200)) := by
  refine ⟨mem_GST_RATES_18, ?_⟩
  obtain ⟨⟨r, h1, h2, -⟩, -⟩ := calculateGst_tax_split 1000 18 0 mem_GST_RATES_18
  exact ⟨r, h1, h2⟩

lemma roundHalfAway_neg (x : ℚ) : roundHalfAway (-x) = -roundHalfAway x := by
  unfold roundHalfAway
  rcases lt_trichotomy x 0 with hx | hx | hx
  · rw [if_pos (by linarith), if_neg (by linarith), neg_neg]
  · subst hx
    norm_num
  · rw [if_neg (by linarith), if_pos (by linarith), neg_neg]

lemma round2_neg (x : ℚ) : round2 (-x) = -round2 x := by
  unfold round2
  rw [show -x * 100 = -(x * 100) by ring, roundHalfAway_neg]
  push_cast
  ring

/-- On a nonnegative input `round2` returns the nearest multiple of `1/100`,
with ties rounded up (away from zero). -/
lemma round2_char_nonneg (x : ℚ) (hx : 0 ≤ x) :
    ∃ k : ℤ, round2 x = (k : ℚ) / 100 ∧ |x - k / 100| ≤ 1 / 200 ∧
      (|x - k / 100| = 1 / 200 → |x| ≤ |(k : ℚ) / 100|) := by
  refine ⟨⌊x * 100 + 1 / 2⌋, ?_, ?_, ?_⟩
  · unfold round2 roundHalfAway
    rw [if_pos (by positivity)]
  · have h1 := Int.floor_le (x * 100 + 1 / 2)
    have h2 := Int.lt_floor_add_one (x * 100 + 1 / 2)
    rw [abs_le]
    constructor <;> [linarith; linarith]
  · intro h
    have h1 := Int.floor_le (x * 100 + 1 / 2)
    have h2 := Int.lt_floor_add_one (x * 100 + 1 / 2)
    rcases (abs_eq (by norm_num)).mp h with h3 | h3
    · exfalso
      linarith
    · have hk : (0 : ℚ) ≤ ⌊x * 100 + 1 / 2⌋ / 100 := by linarith
      rw [abs_of_nonneg hx, abs_of_nonneg hk]
      linarith

/-- Everywhere `round2` returns the nearest multiple of `1/100`, with ties rounded
away from zero: the model of `parseFloat(x.toFixed(2))` is indeed
round-half-away-from-zero at 2 decimal places. -/
lemma round2_char (x : ℚ) :
    ∃ k : ℤ, round2 x = (k : ℚ) / 100 ∧ |x - k / 100| ≤ 1 / 200 ∧
      (|x - k / 100| = 1 / 200 → |x| ≤ |(k : ℚ) / 100|) := by
  rcases le_or_lt 0 x with hx | hx
  · exact round2_char_nonneg x hx
  · obtain ⟨k, h1, h2, h3⟩ := round2_char_nonneg (-x) (by linarith)
    refine ⟨-k, ?_, ?_, ?_⟩
    · rw [show x = -(-x) by ring, round2_neg, h1]
      push_cast
      ring
    · rw [show x - ((-k : ℤ) : ℚ) / 100 = -(-x - (k : ℚ) / 100) by push_cast; ring,
        abs_neg]
      exact h2
    · intro h
      have h4 := h3 (by
        rw [show -x - (k : ℚ) / 100 = -(x - ((-k : ℤ) : ℚ) / 100) by push_cast; ring,
          abs_neg]
        exact h)
      rw [abs_neg] at h4
      rw [show ((-k : ℤ) : ℚ) / 100 = -((k : ℚ) / 100) by push_cast; ring, abs_neg]
      exact h4

/-- C6: every monetary field of a successful `calculateGst` result is the
exact arithmetic value of its defining formula rounded to 2 decimal places
as the final step, and the rounding operation is
round-half-away-from-zero to a multiple of `1/100`. -/
theorem calculateGst_monetary_rounding (t g c : ℚ) (i : Bool)
    (h : g ∈ GST_RATES) :
    (∃ r, calculateGst t g c i = Except.ok r ∧
      r.taxable_amount = round2 t ∧
      r.cgst_amount = round2 (if i then 0 else t * g / 100 / 2) ∧
      r.sgst_amount = round2 (if i then 0 else t * g / 100 / 2) ∧
      r.igst_amount = round2 (if i then t * g / 100 else 0) ∧
      r.cess_amount = round2 (t * c / 100) ∧
      r.total_tax = round2 ((if i then (0 : ℚ) else t * g / 100 / 2) +
        (if i then (0 : ℚ) else t * g / 100 / 2) +
        (if i then t * g / 100 else 0) + t * c / 100) ∧
      r.total_amount = round2 (t + ((if i then (0 : ℚ) else t * g / 100 / 2) +
        (if i then (0 : ℚ) else t * g / 100 / 2) +
        (if i then t * g / 100 else 0) + t * c / 100))) ∧
    (∀ x : ℚ, ∃ k : ℤ, round2 x = (k : ℚ) / 100 ∧ |x - k / 100| ≤ 1 / 200 ∧
      (|x - k / 100| = 1 / 200 → |x| ≤ |(k : ℚ) / 100|)) := by
  refine ⟨?_, round2_char⟩
  simp only [calculateGst, if_pos h]
  exact ⟨_, rfl, rfl, rfl, rfl, rfl, rfl, rfl, rfl⟩

/-- C6 witness: the rounding theorem instantiated at
`calculateGst 1000 18 0 false`. -/
theorem calculateGst_monetary_rounding_witness :
    (18 : ℚ) ∈ GST_RATES ∧
      (∃ r, calculateGst 1000 18 0 false = Except.ok r ∧
        r.taxable_amount = round2 1000) := by
  refine ⟨mem_GST_RATES_18, ?_⟩
  obtain ⟨⟨r, h1, h2, -⟩, -⟩ :=
    calculateGst_monetary_rounding 1000 18 0 false mem_GST_RATES_18
  exact ⟨r, h1, h2⟩

/-- C10: `calculateGst` validates only the GST rate: any taxable amount and
any cess rate (including negative ones) yield a successful result, and
negative inputs propagate into negative tax fields
(`calculateGst (-1000) 18 0 false` has `cgst_amount = -90`;
`calculateGst 1000 18 (-5) false` has `cess_amount = -50`). -/
theorem calculateGst_only_validates_rate (t g c : ℚ) (i : Bool)
    (h : g ∈ GST_RATES) :
    (∃ r, calculateGst t g c i = Except.ok r) ∧
      (okGst (calculateGst (-1000) 18 0 false)).map GstCalculation.cgst_amount =
        some (-90) ∧
      (okGst (calculateGst 1000 18 (-5) false)).map GstCalculation.cess_amount =
        some (-50) := by
  refine ⟨?_, ?_, ?_⟩
  · simp only [calculateGst, if_pos h]
    exact ⟨_, rfl⟩
  · norm_num [calculateGst, GST_RATES, okGst, round2, roundHalfAway]
  · norm_num [calculateGst, GST_RATES, okGst, round2, roundHalfAway]

/-- C10 witness: instantiated at a negative amount and negative cess rate. -/
theorem calculateGst_only_validates_rate_witness :
    (18 : ℚ) ∈ GST_RATES ∧ (∃ r, calculateGst (-55) 18 (-7) true = Except.ok r) :=
  ⟨mem_GST_RATES_18,
    (calculateGst_only_validates_rate (-55) 18 (-7) true mem_GST_RATES_18).1⟩

/-- Result object of `calculateLineItem` (`LineItemCalculation`). -/
structure LineItemCalculation where
  quantity : ℚ
  unit_price : ℚ
  discount_percent : ℚ
  discount_amount : ℚ
  taxable_amount : ℚ
  gst_calculation : GstCalculation
  line_total : ℚ
  deriving Repr, DecidableEq

/-- Result object of `calculateInvoiceTotals` (`InvoiceTotals`). -/
structure InvoiceTotals where
  subtotal : ℚ
  total_discount : ℚ
  taxable_amount : ℚ
  cgst_total : ℚ
  sgst_total : ℚ
  igst_total : ℚ
  cess_total : ℚ
  total_tax : ℚ
  total_amount : ℚ
  round_off : ℚ
  final_amount : ℚ
  deriving Repr, DecidableEq

/-- Model of `lineItems.reduce((sum, item) => sum + item.quantity * item.unit_price, 0)`. -/
def invSubtotal (items : List LineItemCalculation) : ℚ :=
  items.foldl (fun sum item => sum + item.quantity * item.unit_price) 0

/-- Sum of `discount_amount` over the line items. -/
def invDiscount (items : List LineItemCalculation) : ℚ :=
  items.foldl (fun sum item => sum + item.discount_amount) 0

/-- Sum of `taxable_amount` over the line items. -/
def invTaxable (items : List LineItemCalculation) : ℚ :=
  items.foldl (fun sum item => sum + item.taxable_amount) 0

/-- Sum of `gst_calculation.cgst_amount` over the line items. -/
def invCgst (items : List LineItemCalculation) : ℚ :=
  items.foldl (fun sum item => sum + item.gst_calculation.cgst_amount) 0

/-- Sum of `gst_calculation.sgst_amount` over the line items. -/
def invSgst (items : List LineItemCalculation) : ℚ :=
  items.foldl (fun sum item => sum + item.gst_calculation.sgst_amount) 0

/-- Sum of `gst_calculation.igst_amount` over the line items. -/
def invIgst (items : List LineItemCalculation) : ℚ :=
  items.foldl (fun sum item => sum + item.gst_calculation.igst_amount) 0

/-- Sum of `gst_calculation.cess_amount` over the line items. -/
def invCess (items : List LineItemCalculation) : ℚ :=
  items.foldl (fun sum item => sum + item.gst_calculation.cess_amount) 0

/-- Embedding of `calculateInvoiceTotals(lineItems, roundOff)`. -/
def calculateInvoiceTotals (lineItems : List LineItemCalculation)
    (roundOff : Bool) : Except String InvoiceTotals :=
  if lineItems.length = 0 then
    Except.error "Invoice must have at least one line item"
  else
    let totalTax := invCgst lineItems + invSgst lineItems + invIgst lineItems +
      invCess lineItems
    let totalAmount := invTaxable lineItems + totalTax
    let finalAmount := if roundOff then ((jsRound totalAmount : ℤ) : ℚ)
      else totalAmount
    let roundOffAmount := if roundOff then finalAmount - totalAmount else 0
    Except.ok
      { subtotal := round2 (invSubtotal lineItems)
        total_discount := round2 (invDiscount lineItems)
        taxable_amount := round2 (invTaxable lineItems)
        cgst_total := round2 (invCgst lineItems)
        sgst_total := round2 (invSgst lineItems)
        igst_total := round2 (invIgst lineItems)
        cess_total := round2 (invCess lineItems)
        total_tax := round2 totalTax
        total_amount := round2 totalAmount
        round_off := round2 roundOffAmount
        final_amount := round2 finalAmount }

/-- Projects a successful `calculateInvoiceTotals` result. -/
def okTotals : Except String InvoiceTotals → Option InvoiceTotals
  | Except.ok t => some t
  | Except.error _ => none

/-- Predicate: `x` is a whole number of paise (an integer multiple of `1/100`). -/
def centMul (x : ℚ) : Prop := ∃ k : ℤ, x = (k : ℚ) / 100

/-- Line items whose monetary fields entering the invoice totals are whole
numbers of paise (as every output of `calculateLineItem` is). -/
def itemCents (it : LineItemCalculation) : Prop :=
  centMul it.taxable_amount ∧ centMul it.gst_calculation.cgst_amount ∧
    centMul it.gst_calculation.sgst_amount ∧
    centMul it.gst_calculation.igst_amount ∧
    centMul it.gst_calculation.cess_amount

lemma centMul_add {x y : ℚ} (hx : centMul x) (hy : centMul y) :
    centMul (x + y) := by
  obtain ⟨a, rfl⟩ := hx
  obtain ⟨b, rfl⟩ := hy
  exact ⟨a + b, by push_cast; ring⟩

lemma centMul_sub {x y : ℚ} (hx : centMul x) (hy : centMul y) :
    centMul (x - y) := by
  obtain ⟨a, rfl⟩ := hx
  obtain ⟨b, rfl⟩ := hy
  exact ⟨a - b, by push_cast; ring⟩

lemma centMul_zero : centMul 0 := ⟨0, by norm_num⟩

lemma centMul_int (n : ℤ) : centMul (n : ℚ) := ⟨100 * n, by push_cast; ring⟩

lemma centMul_foldl (f : LineItemCalculation → ℚ)
    (items : List LineItemCalculation) (h : ∀ it ∈ items, centMul (f it)) :
    centMul (items.foldl (fun sum it => sum + f it) 0) := by
  suffices H : ∀ a : ℚ, centMul a →
      centMul (items.foldl (fun sum it => sum + f it) a) from
    H 0 centMul_zero
  induction items with
  | nil => intro a ha; exact ha
  | cons hd tl ih =>
    intro a ha
    exact ih (fun it hit => h it (List.mem_cons_of_mem hd hit)) _
      (centMul_add ha (h hd (List.mem_cons_self hd tl)))

lemma roundHalfAway_intCast (k : ℤ) : roundHalfAway (k : ℚ) = k := by
  unfold roundHalfAway
  rcases le_or_lt 0 (k : ℚ) with hk | hk
  · rw [if_pos hk, Int.floor_int_add]
    norm_num
  · rw [if_neg (by linarith), show (-(k : ℚ) + 1 / 2) = ((-k : ℤ) : ℚ) + 1 / 2 by
      push_cast; ring, Int.floor_int_add]
    norm_num

lemma round2_eq_self {x : ℚ} (hx : centMul x) : round2 x = x := by
  obtain ⟨k, rfl⟩ := hx
  unfold round2
  rw [show (k : ℚ) / 100 * 100 = (k : ℚ) by field_simp, roundHalfAway_intCast]

/-- C2 (amended): on line items whose monetary fields are whole paise,
`calculateInvoiceTotals` satisfies `final_amount = total_amount + round_off`;
with `roundOff = true` the final amount is the integer obtained from
`total_amount` by JavaScript `Math.round` (ties toward `+∞`, not
half-away-from-zero) and `round_off = final_amount - total_amount`;
with `roundOff = false`, `round_off = 0` and `final_amount = total_amount`. -/
theorem calculateInvoiceTotals_round_invariant
    (items : List LineItemCalculation) (roundOff : Bool)
    (hne : items ≠ []) (hc : ∀ it ∈ items, itemCents it) :
    ∃ tot, calculateInvoiceTotals items roundOff = Except.ok tot ∧
      tot.final_amount = tot.total_amount + tot.round_off ∧
      (roundOff = true → (∃ n : ℤ, tot.final_amount = (n : ℚ)) ∧
        tot.final_amount = ((jsRound tot.total_amount : ℤ) : ℚ) ∧
        tot.round_off = tot.final_amount - tot.total_amount) ∧
      (roundOff = false → tot.round_off = 0 ∧
        tot.final_amount = tot.total_amount) := by
  have hlen : ¬ items.length = 0 := by
    simpa [List.length_eq_zero] using hne
  have hT : centMul (invTaxable items +
      (invCgst items + invSgst items + invIgst items + invCess items)) := by
    refine centMul_add ?_ (centMul_add (centMul_add (centMul_add ?_ ?_) ?_) ?_)
    · exact centMul_foldl (fun it => it.taxable_amount) items
        (fun it hit => (hc it hit).1)
    · exact centMul_foldl (fun it => it.gst_calculation.cgst_amount) items
        (fun it hit => (hc it hit).2.1)
    · exact centMul_foldl (fun it => it.gst_calculation.sgst_amount) items
        (fun it hit => (hc it hit).2.2.1)
    · exact centMul_foldl (fun it => it.gst_calculation.igst_amount) items
        (fun it hit => (hc it hit).2.2.2.1)
    · exact centMul_foldl (fun it => it.gst_calculation.cess_amount) items
        (fun it hit => (hc it hit).2.2.2.2)
  cases roundOff with
  | false =>
    simp only [calculateInvoiceTotals, if_neg hlen]
    refine ⟨_, rfl, ?_, ?_, ?_⟩
    · simp [round2_zero]
    · simp
    · intro _
      simp [round2_zero]
  | true =>
    simp only [calculateInvoiceTotals, if_neg hlen]
    have hself := round2_eq_self hT
    have hint := round2_eq_self (centMul_int (jsRound (invTaxable items +
      (invCgst items + invSgst items + invIgst items + invCess items))))
    have hsub := round2_eq_self (centMul_sub (centMul_int (jsRound
      (invTaxable items +
        (invCgst items + invSgst items + invIgst items + invCess items)))) hT)
    refine ⟨_, rfl, ?_, ?_, ?_⟩
    · simp only [if_true]
      rw [hint, hself, hsub]
      ring
    · intro _
      refine ⟨⟨jsRound (invTaxable items +
          (invCgst items + invSgst items + invIgst items + invCess items)), ?_⟩,
          ?_, ?_⟩
      · simp only [if_true]
        exact hint
      · simp only [if_true]
        rw [hint, hself]
      · simp only [if_true]
        rw [hint, hself, hsub]
    · simp

/-- All-zero `GstCalculation`, for building concrete line items. -/
def zeroGst : GstCalculation :=
  { taxable_amount := 0, gst_rate := 0, cgst_rate := 0, sgst_rate := 0
    igst_rate := 0, cess_rate := 0, cgst_amount := 0, sgst_amount := 0
    igst_amount := 0, cess_amount := 0, total_tax := 0, total_amount := 0 }

/-- A line item carrying a taxable amount of `-2.50` and no tax. -/
def negHalfItem : LineItemCalculation :=
  { quantity := 0, unit_price := 0, discount_percent := 0, discount_amount := 0
    taxable_amount := -5 / 2, gst_calculation := zeroGst, line_total := 0 }

/-- C2 counterexample: on an invoice totalling `-2.50`, the code's
`Math.round` produces `final_amount = -2` (ties toward `+∞`) while
rounding half-away-from-zero, as the claim states, would give `-3`. -/
theorem calculateInvoiceTotals_round_counterexample :
    (okTotals (calculateInvoiceTotals [negHalfItem] true)).map
        InvoiceTotals.final_amount = some (-2) ∧
      (okTotals (calculateInvoiceTotals [negHalfItem] true)).map
        InvoiceTotals.total_amount = some (-5 / 2) ∧
      (roundHalfAway (-5 / 2 : ℚ) : ℚ) = -3 ∧ ((-2 : ℚ) ≠ -3) := by
  refine ⟨?_, ?_, ?_, by norm_num⟩
  · norm_num [calculateInvoiceTotals, okTotals, invCgst, invSgst, invIgst,
      invCess, invTaxable, negHalfItem, zeroGst, jsRound, round2, roundHalfAway]
  · norm_num [calculateInvoiceTotals, okTotals, invCgst, invSgst, invIgst,
      invCess, invTaxable, negHalfItem, zeroGst, jsRound, round2, roundHalfAway]
  · norm_num [roundHalfAway]

/-- A line item with taxable amount `100.50` and CGST = SGST = `9.05`. -/
def centsItem : LineItemCalculation :=
  { quantity := 1, unit_price := 100, discount_percent := 0, discount_amount := 0
    taxable_amount := 201 / 2
    gst_calculation :=
      { taxable_amount := 201 / 2, gst_rate := 18, cgst_rate := 9, sgst_rate := 9
        igst_rate := 0, cess_rate := 0, cgst_amount := 181 / 20
        sgst_amount := 181 / 20, igst_amount := 0, cess_amount := 0
        total_tax := 181 / 10, total_amount := 593 / 5 }
    line_total := 593 / 5 }

/-- C2 witness: the invariant theorem instantiated on a concrete
one-line invoice with whole-paise amounts. -/
theorem calculateInvoiceTotals_round_invariant_witness :
    ([centsItem] : List LineItemCalculation) ≠ [] ∧
      (∃ tot, calculateInvoiceTotals [centsItem] true = Except.ok tot ∧
        tot.final_amount = tot.total_amount + tot.round_off) := by
  refine ⟨by simp, ?_⟩
  obtain ⟨tot, h1, h2, -⟩ :=
    calculateInvoiceTotals_round_invariant [centsItem] true (by simp)
      (by
        intro it hit
        simp only [List.mem_singleton] at hit
        subst hit
        exact ⟨⟨10050, by norm_num [centsItem]⟩, ⟨905, by norm_num [centsItem]⟩,
          ⟨905, by norm_num [centsItem]⟩, ⟨0, by norm_num [centsItem]⟩,
          ⟨0, by norm_num [centsItem]⟩⟩)
  exact ⟨tot, h1, h2⟩

/-- JavaScript `\s` whitespace, restricted to the ASCII range (the wider
Unicode whitespace characters never occur in the inputs the proofs touch). -/
def isJsSpace (c : Char) : Bool :=
  c == ' ' || c == '\t' || c == '\n' || c == '\r' || c == '\x0b' || c == '\x0c'

/-- JavaScript `String.prototype.trim`. -/
def jsTrim (s : String) : String :=
  ⟨((s.data.dropWhile isJsSpace).reverse.dropWhile isJsSpace).reverse⟩

/-- The HSN or SAC classification tag. -/
inductive HsnType where
  | HSN
  | SAC
  deriving Repr, DecidableEq

/-- Result object of `validateHsnSac` (`HsnSacValidation` in the source). -/
inductive HsnSacValidation where
  | ok (type : HsnType) (description : String)
  | err (error : String)
  deriving Repr, DecidableEq

/-- The regex `^\d{2,8}$`: 2 to 8 characters, all decimal digits. -/
def hsnShape (s : String) : Bool :=
  decide (2 ≤ s.length) && decide (s.length ≤ 8) && s.data.all Char.isDigit

/-- The regex `^99\d{4}$`: exactly 6 digits beginning with `99`. -/
def sacShape (s : String) : Bool :=
  decide (s.length = 6) && decide (s.data.take 2 = ['9', '9']) &&
    s.data.all Char.isDigit

/-- Embedding of `validateHsnSac(code)`. -/
def validateHsnSac (code : String) : HsnSacValidation :=
  if code = "" then HsnSacValidation.err "HSN/SAC code is required"
  else
    let cleanCode := jsTrim code
    if hsnShape cleanCode then
      if cleanCode.length < 2 ∨ 8 < cleanCode.length then
        HsnSacValidation.err "HSN code must be 2-8 digits"
      else
        HsnSacValidation.ok HsnType.HSN "HSN code for goods"
    else if sacShape cleanCode then
      HsnSacValidation.ok HsnType.SAC "SAC code for services"
    else
      HsnSacValidation.err
        "Invalid HSN/SAC format. HSN: 2-8 digits, SAC: 6 digits starting with 99"

example : validateHsnSac "1234" = HsnSacValidation.ok HsnType.HSN
    "HSN code for goods" := by decide

/-- C3 counterexample: `validateHsnSac "997212"` actually classifies the
code as HSN (the broad 2–8-digit pattern is tested first), not SAC. -/
theorem validateHsnSac_997212_counterexample :
    validateHsnSac "997212" = HsnSacValidation.ok HsnType.HSN
        "HSN code for goods" ∧
      HsnType.HSN ≠ HsnType.SAC := by decide

/-- C3 (amended): both `"1234"` and `"997212"` are accepted and classified
as HSN; the digit-only SAC-shaped code `"997212"` matches the HSN pattern,
which is checked first. -/
theorem validateHsnSac_digit_codes :
    validateHsnSac "1234" = HsnSacValidation.ok HsnType.HSN
        "HSN code for goods" ∧
      validateHsnSac "997212" = HsnSacValidation.ok HsnType.HSN
        "HSN code for goods" := by decide

/-- C9: the inner length check of the HSN branch is dead code — no input
ever produces the error `"HSN code must be 2-8 digits"`, because the
`^\d{2,8}$` match already bounds the trimmed length to 2–8. -/
theorem validateHsnSac_length_error_unreachable (code : String) :
    validateHsnSac code ≠ HsnSacValidation.err "HSN code must be 2-8 digits" := by
  simp only [validateHsnSac]
  split
  · decide
  · split
    · rename_i hp
      split
      · rename_i hlen
        exfalso
        simp only [hsnShape, Bool.and_eq_true, decide_eq_true_eq] at hp
        omega
      · decide
    · split
      · decide
      · decide

/-- The checksum alphabet `"0123456789ABCDEFGHIJKLMNOPQRSTUVWXYZ"`. -/
def codePointChars : List Char :=
  ['0', '1', '2', '3', '4', '5', '6', '7', '8', '9',
   'A', 'B', 'C', 'D', 'E', 'F', 'G', 'H', 'I', 'J', 'K', 'L', 'M',
   'N', 'O', 'P', 'Q', 'R', 'S', 'T', 'U', 'V', 'W', 'X', 'Y', 'Z']

/-- Model of `codePointChars.indexOf(c)`, with `-1` modelled as `none`. -/
def codePoint (c : Char) : Option ℕ :=
  codePointChars.findIdx? (· == c)

/-- Model of `factor = factor === 2 ? 1 : 2`. -/
def toggleFactor (f : ℕ) : ℕ := if f = 2 then 1 else 2

/-- The checksum loop of `validateGstinChecksum`, processing characters
from index `length - 2` down to `0` (the argument list is that segment
reversed), carrying the alternating factor; `none` models the early
`return false` on a character outside the alphabet. -/
def checksumLoop : List Char → ℕ → Option ℕ
  | [], _ => some 0
  | c :: rest, factor =>
    match codePoint c with
    | none => none
    | some cp =>
      match checksumLoop rest (toggleFactor factor) with
      | none => none
      | some s => some (factor * cp / 37 + factor * cp % 37 + s)

/-- Embedding of `validateGstinChecksum(gstin)`. -/
def validateGstinChecksum (gstin : String) : Bool :=
  let l := gstin.data
  match checksumLoop (l.take (l.length - 1)).reverse 2 with
  | none => false
  | some sum =>
    match codePoint (l.getD 14 ' ') with
    | none => false
    | some provided => decide ((37 - sum % 37) % 37 = provided)

/-- The multiplier of the claim: `2` for the character nearest the check
digit (distance offset `j = 0`), `1` for the next, alternating. -/
def specFactor (j : ℕ) : ℕ := if j % 2 = 0 then 2 else 1

/-- The per-character transform of the claim:
`digit ↦ floor(digit/37) + digit mod 37`. -/
def specTransform (d : ℕ) : ℕ := d / 37 + d % 37

/-- The claim's checksum sum: characters at distance offsets `j, j+1, …`
from the check digit, each contributing
`specTransform (specFactor j * codePointIndex)`. -/
def specSumFrom : List Char → ℕ → Option ℕ
  | [], _ => some 0
  | c :: rest, j =>
    match codePoint c with
    | none => none
    | some cp =>
      match specSumFrom rest (j + 1) with
      | none => none
      | some s => some (specTransform (specFactor j * cp) + s)

/-- The claim's acceptance condition: the first 14 characters, processed
from the second-to-last backward with the parity-determined multiplier,
yield `sum` with `(37 - sum mod 37) mod 37` equal to the alphabet index of
the 15th character; any character outside the alphabet fails. -/
def specChecksumOk (s : String) : Bool :=
  let l := s.data
  match specSumFrom (l.take 14).reverse 0 with
  | none => false
  | some sum =>
    match codePoint (l.getD 14 ' ') with
    | none => false
    | some provided => decide ((37 - sum % 37) % 37 = provided)

lemma toggleFactor_specFactor (j : ℕ) :
    toggleFactor (specFactor j) = specFactor (j + 1) := by
  rcases Nat.mod_two_eq_zero_or_one j with h | h
  · have h1 : (j + 1) % 2 = 1 := by omega
    simp [toggleFactor, specFactor, h, h1]
  · have h1 : (j + 1) % 2 = 0 := by omega
    simp [toggleFactor, specFactor, h, h1]

lemma checksumLoop_specSumFrom (l : List Char) (j : ℕ) :
    checksumLoop l (specFactor j) = specSumFrom l j := by
  induction l generalizing j with
  | nil => rfl
  | cons c rest ih =>
    simp only [checksumLoop, specSumFrom, toggleFactor_specFactor, ih,
      specTransform]

lemma checksumLoop_two (l : List Char) : checksumLoop l 2 = specSumFrom l 0 := by
  have h := checksumLoop_specSumFrom l 0
  rwa [show specFactor 0 = 2 by norm_num [specFactor]] at h

/-- C4: on 15-character strings the checksum validation of the code agrees
exactly with the claim's description (alternating multiplier from the
second-to-last character with parity-determined factor, per-character
transform, final comparison against the 15th character's alphabet index,
failure on out-of-alphabet characters). -/
theorem validateGstinChecksum_spec (s : String) (h : s.length = 15) :
    validateGstinChecksum s = true ↔ specChecksumOk s = true := by
  have hlen : s.data.length = 15 := h
  simp only [validateGstinChecksum, specChecksumOk, hlen, checksumLoop_two]

/-- C4 witness: the equivalence instantiated on a concrete 15-character
string that the checksum accepts. -/
theorem validateGstinChecksum_spec_witness :
    ("27AAPFU0939F1Z2" : String).length = 15 ∧
      validateGstinChecksum "27AAPFU0939F1Z2" = true ∧
      (validateGstinChecksum "27AAPFU0939F1Z2" = true ↔
        specChecksumOk "27AAPFU0939F1Z2" = true) :=
  ⟨by decide, by decide, validateGstinChecksum_spec "27AAPFU0939F1Z2" (by decide)⟩

/-- The `STATE_CODES` table (all 38 entries, "01".."38"). -/
def STATE_CODES : List (String × String) :=
  [("01", "Jammu and Kashmir"), ("02", "Himachal Pradesh"), ("03", "Punjab"),
   ("04", "Chandigarh"), ("05", "Uttarakhand"), ("06", "Haryana"),
   ("07", "Delhi"), ("08", "Rajasthan"), ("09", "Uttar Pradesh"),
   ("10", "Bihar"), ("11", "Sikkim"), ("12", "Arunachal Pradesh"),
   ("13", "Nagaland"), ("14", "Manipur"), ("15", "Mizoram"),
   ("16", "Tripura"), ("17", "Meghalaya"), ("18", "Assam"),
   ("19", "West Bengal"), ("20", "Jharkhand"), ("21", "Odisha"),
   ("22", "Chhattisgarh"), ("23", "Madhya Pradesh"), ("24", "Gujarat"),
   ("25", "Daman and Diu"), ("26", "Dadra and Nagar Haveli"),
   ("27", "Maharashtra"), ("28", "Andhra Pradesh"), ("29", "Karnataka"),
   ("30", "Goa"), ("31", "Lakshadweep"), ("32", "Kerala"),
   ("33", "Tamil Nadu"), ("34", "Puducherry"),
   ("35", "Andaman and Nicobar Islands"), ("36", "Telangana"),
   ("37", "Andhra Pradesh (New)"), ("38", "Ladakh")]

/-- Result object of `validateGstin` (`GstinValidation` in the source). -/
inductive GstinValidation where
  | ok (stateCode panNumber entityNumber checkDigit : String)
  | err (error : String)
  deriving Repr, DecidableEq

/-- Model of `gstin.replace(/\s/g, '')`. -/
def jsStripSpaces (s : String) : String :=
  ⟨s.data.filter (fun c => !isJsSpace c)⟩

/-- Model of `s.toUpperCase()` (ASCII range, which covers GSTIN characters). -/
def jsToUpper (s : String) : String :=
  ⟨s.data.map Char.toUpper⟩

/-- Model of `s.substring(a, b)` for `a ≤ b`. -/
def substring (s : String) (a b : ℕ) : String :=
  ⟨(s.data.drop a).take (b - a)⟩

/-- Character class `[A-Z]`. -/
def isUpperAZ (c : Char) : Bool := 'A' ≤ c && c ≤ 'Z'

/-- Character class `[A-Z0-9]`. -/
def isUpperAlnum (c : Char) : Bool := c.isDigit || isUpperAZ c

/-- The regex `^[0-9]{2}[A-Z0-9]{10}[0-9][A-Z][A-Z0-9]$`. -/
def gstinFormatOk (s : String) : Bool :=
  let classifiers : List (Char → Bool) :=
    [Char.isDigit, Char.isDigit] ++ List.replicate 10 isUpperAlnum ++
      [Char.isDigit, isUpperAZ, isUpperAlnum]
  decide (s.length = 15) && (List.zipWith (fun f c => f c) classifiers s.data).all id

/-- The PAN sub-pattern `^[A-Z]{5}[0-9]{4}[A-Z]$`. -/
def panFormatOk (s : String) : Bool :=
  let classifiers : List (Char → Bool) :=
    List.replicate 5 isUpperAZ ++ List.replicate 4 Char.isDigit ++ [isUpperAZ]
  decide (s.length = 10) && (List.zipWith (fun f c => f c) classifiers s.data).all id

/-- Embedding of `validateGstin(gstin)`. Note the source's
`checkDigit = cleanGstin.substring(13, 15)` — a two-character slice. -/
def validateGstin (gstin : String) : GstinValidation :=
  if gstin = "" then GstinValidation.err "GSTIN is required"
  else
    let cleanGstin := jsToUpper (jsStripSpaces gstin)
    if cleanGstin.length ≠ 15 then
      GstinValidation.err "GSTIN must be exactly 15 characters"
    else if !gstinFormatOk cleanGstin then
      GstinValidation.err "Invalid GSTIN format"
    else
      let stateCode := substring cleanGstin 0 2
      let panNumber := substring cleanGstin 2 12
      let entityNumber := substring cleanGstin 12 13
      let checkDigit := substring cleanGstin 13 15
      if !(STATE_CODES.map Prod.fst).contains stateCode then
        GstinValidation.err "Invalid state code in GSTIN"
      else if !panFormatOk panNumber then
        GstinValidation.err "Invalid PAN format within GSTIN"
      else if !validateGstinChecksum cleanGstin then
        GstinValidation.err "Invalid GSTIN checksum"
      else GstinValidation.ok stateCode panNumber entityNumber checkDigit

/-- C5: evaluation at a concrete input on which `validateGstin` succeeds.
The returned `checkDigit` is the two-character slice `"Z2"`
(`substring(13, 15)`), not a single character as specified. -/
theorem validateGstin_checkDigit_length :
    validateGstin "27AAPFU0939F1Z2" =
        GstinValidation.ok "27" "AAPFU0939F" "1" "Z2" ∧
      ("Z2" : String).length = 2 ∧ ("AAPFU0939F" : String).length = 10 ∧
      ("1" : String).length = 1 := by decide

/-- The `(year, monthIndex, day)` view of a JavaScript `Date`
(`getFullYear`, `getMonth` — zero-based — and `getDate`). -/
structure JsDate where
  year : ℕ
  monthIndex : ℕ
  day : ℕ

/-- Model of `s.padStart(n, c)`. -/
def padStart (s : String) (n : ℕ) (c : Char) : String :=
  if n ≤ s.length then s else ⟨List.replicate (n - s.length) c ++ s.data⟩

/-- Model of `String(year).slice(-2)`. -/
def sliceLastTwo (s : String) : String :=
  ⟨s.data.drop (s.data.length - 2)⟩

def replaceFirstAux : List Char → List Char → List Char → List Char
  | [], _, _ => []
  | c :: rest, pat, repl =>
    if pat.isPrefixOf (c :: rest) then repl ++ (c :: rest).drop pat.length
    else c :: replaceFirstAux rest pat repl

/-- Model of `s.replace(pat, repl)` for a literal, non-empty pattern:
replaces the leftmost occurrence only. -/
def replaceFirst (s pat repl : String) : String :=
  ⟨replaceFirstAux s.data pat.data repl.data⟩

/-- Leftmost match of the regex `\{(#+)\}`: returns the text before the
match, the number of `#` characters, and the text after the match. -/
def findCounterMatch : List Char → Option (List Char × ℕ × List Char)
  | [] => none
  | c :: rest =>
    if c = '{' ∧ 0 < (rest.takeWhile (· == '#')).length ∧
        (rest.drop (rest.takeWhile (· == '#')).length).head? = some '}' then
      some ([], (rest.takeWhile (· == '#')).length,
        rest.drop ((rest.takeWhile (· == '#')).length + 1))
    else
      match findCounterMatch rest with
      | none => none
      | some (p, n, suf) => some (c :: p, n, suf)

/-- Model of `parseInt` on a string of decimal digits. -/
def digitsToNat (l : List Char) : ℕ :=
  l.foldl (fun acc c => acc * 10 + (c.toNat - '0'.toNat)) 0

/-- The counter-extraction step of `generateInvoiceNumber`:
`lastNumber.match(/(\d+)$/)` and `parseInt(...) + 1`, defaulting to 1. -/
def extractCounter : Option String → ℕ
  | none => 1
  | some s =>
    if s = "" then 1
    else
      let ds := s.data.reverse.takeWhile Char.isDigit
      if ds = [] then 1 else digitsToNat ds.reverse + 1

/-- Embedding of `generateInvoiceNumber(format, lastNumber, date)`. -/
def generateInvoiceNumber (fmt : String) (lastNumber : Option String)
    (date : JsDate) : String :=
  let yearS := toString date.year
  let monthS := padStart (toString (date.monthIndex + 1)) 2 '0'
  let dayS := padStart (toString date.day) 2 '0'
  let counter := extractCounter lastNumber
  let invoiceNumber :=
    replaceFirst (replaceFirst (replaceFirst (replaceFirst fmt
      "{YYYY}" yearS) "{YY}" (sliceLastTwo yearS)) "{MM}" monthS) "{DD}" dayS
  match findCounterMatch invoiceNumber.data with
  | none => invoiceNumber
  | some (p, n, suf) =>
    ⟨p ++ (padStart (toString counter) n '0').data ++ suf⟩

lemma takeWhile_append_all {p : Char → Bool} {l1 l2 : List Char}
    (h : l1.all p = true) : (l1 ++ l2).takeWhile p = l1 ++ l2.takeWhile p := by
  induction l1 with
  | nil => simp
  | cons c t ih =>
    simp only [List.all_cons, Bool.and_eq_true] at h
    simp [List.takeWhile_cons, h.1, ih h.2]

lemma takeWhile_eq_nil_of_getLast {l : List Char}
    (h : l.getLast?.all (fun c => !c.isDigit) = true) :
    l.reverse.takeWhile Char.isDigit = [] := by
  cases hrev : l.reverse with
  | nil => rfl
  | cons c t =>
    have hc : l.getLast? = some c := by
      rw [← List.head?_reverse, hrev]
      rfl
    rw [hc] at h
    simp only [Option.all_some] at h
    have hcd : c.isDigit = false := by simpa using h
    simp [List.takeWhile_cons, hcd]

/-- C7: the counter is 1 plus the value of the trailing digit run of
`lastNumber` (tail-anchored match) when one exists, and 1 otherwise; the
counter then replaces the `{#...#}` placeholder zero-padded to the
placeholder width after the date placeholders are substituted, as in the
concrete example `INV-{YYYY}-{MM}-{####}` with last number
`INV-2024-01-0005` on `new Date(2024, 1, 1)`. -/
theorem generateInvoiceNumber_spec :
    (∀ pre ds : List Char, ds ≠ [] → ds.all Char.isDigit = true →
      pre.getLast?.all (fun c => !c.isDigit) = true →
      extractCounter (some ⟨pre ++ ds⟩) = digitsToNat ds + 1) ∧
    (∀ s : String, s.data.getLast?.all (fun c => !c.isDigit) = true →
      extractCounter (some s) = 1) ∧
    extractCounter none = 1 ∧
    generateInvoiceNumber "INV-{YYYY}-{MM}-{####}" (some "INV-2024-01-0005")
      ⟨2024, 1, 1⟩ = "INV-2024-02-0006" := by
  refine ⟨?_, ?_, rfl, by decide⟩
  · intro pre ds hne hds hpre
    have hs : (⟨pre ++ ds⟩ : String) ≠ "" := by
      intro hcon
      have hdata : pre ++ ds = ([] : List Char) := congrArg String.data hcon
      exact hne (List.append_eq_nil.mp hdata).2
    simp only [extractCounter, if_neg hs]
    have hrev : (pre ++ ds).reverse.takeWhile Char.isDigit = ds.reverse := by
      rw [List.reverse_append,
        takeWhile_append_all (by rwa [List.all_reverse]),
        takeWhile_eq_nil_of_getLast hpre, List.append_nil]
    rw [hrev, if_neg (by simpa using hne), List.reverse_reverse]
  · intro s hs
    by_cases hemp : s = ""
    · subst hemp
      rfl
    · simp only [extractCounter, if_neg hemp,
        takeWhile_eq_nil_of_getLast hs]
      simp

/-- C7 witness: the counter-extraction clause applied at
`lastNumber = "INV-0042"`. -/
theorem generateInvoiceNumber_spec_witness :
    extractCounter (some ⟨"INV-".data ++ "0042".data⟩) =
      digitsToNat "0042".data + 1 :=
  generateInvoiceNumber_spec.1 "INV-".data "0042".data (by decide) (by decide)
    (by decide)

/-- The `ones` word table (JS array indices 0–19; out-of-range indexing
yields `undefined`, which string concatenation renders as `"undefined"`). -/
def onesWords : List String :=
  ["", "one", "two", "three", "four", "five", "six", "seven", "eight", "nine",
   "ten", "eleven", "twelve", "thirteen", "fourteen", "fifteen", "sixteen",
   "seventeen", "eighteen", "nineteen"]

/-- The `tens` word table. -/
def tensWords : List String :=
  ["", "", "twenty", "thirty", "forty", "fifty", "sixty", "seventy", "eighty",
   "ninety"]

/-- Helper: `convertBelow1000` restricted to the recursive call's argument range
`num % 100 < 100`; on that range it coincides with the source function. -/
def convertBelow100 (num : ℕ) : String :=
  if num = 0 then ""
  else if num < 20 then onesWords.getD num "undefined"
  else
    tensWords.getD (num / 10) "undefined" ++
      (if num % 10 ≠ 0 then " " ++ onesWords.getD (num % 10) "undefined" else "")

/-- Embedding of the inner helper `convertBelow1000(num)`; its single
recursive call receives `num % 100`, which `convertBelow100` handles. -/
def convertBelow1000 (num : ℕ) : String :=
  if num = 0 then ""
  else if num < 20 then onesWords.getD num "undefined"
  else if num < 100 then
    tensWords.getD (num / 10) "undefined" ++
      (if num % 10 ≠ 0 then " " ++ onesWords.getD (num % 10) "undefined" else "")
  else
    onesWords.getD (num / 100) "undefined" ++ " hundred" ++
      (if num % 100 ≠ 0 then " " ++ convertBelow100 (num % 100) else "")

/-- Embedding of the inner helper `convertAmount(num)`
(Indian scale: crore, lakh, thousand, then below-1000). -/
def convertAmount (num : ℕ) : String :=
  if num = 0 then "zero"
  else
    let crore := num / 10000000
    let lakh := num % 10000000 / 100000
    let thousand := num % 100000 / 1000
    let remainder := num % 1000
    let r1 := if 0 < crore then convertBelow1000 crore ++ " crore " else ""
    let r2 := r1 ++ (if 0 < lakh then convertBelow1000 lakh ++ " lakh " else "")
    let r3 := r2 ++
      (if 0 < thousand then convertBelow1000 thousand ++ " thousand " else "")
    let r4 := r3 ++ (if 0 < remainder then convertBelow1000 remainder else "")
    jsTrim r4

/-- Model of `Math.floor(Math.abs(amount))`. -/
def rupeesPart (amount : ℚ) : ℕ := (⌊|amount|⌋).toNat

/-- Model of `Math.round((Math.abs(amount) - rupees) * 100)`. -/
def paisePart (amount : ℚ) : ℕ :=
  (jsRound ((|amount| - ⌊|amount|⌋) * 100)).toNat

/-- Embedding of `amountToWords(amount)`. -/
def amountToWords (amount : ℚ) : String :=
  let rupees := rupeesPart amount
  let paise := paisePart amount
  let r0 := if amount < 0 then "minus " else ""
  let r1 := r0 ++ (if 0 < rupees then
    convertAmount rupees ++ " rupee" ++ (if rupees ≠ 1 then "s" else "")
    else "")
  let r2 := r1 ++ (if 0 < paise then
    (if 0 < rupees then " and " else "") ++ convertAmount paise ++ " paise"
    else "")
  let r3 := if rupees = 0 ∧ paise = 0 then "zero rupees" else r2
  r3 ++ " only"

lemma rupeesPart_eq (x : ℚ) (n : ℕ) (hx : 0 ≤ x) (hf : ⌊x⌋ = (n : ℤ)) :
    rupeesPart x = n := by
  unfold rupeesPart
  rw [abs_of_nonneg hx, hf, Int.toNat_ofNat]

lemma paisePart_eq (x : ℚ) (m : ℤ) (n : ℕ) (hx : 0 ≤ x) (hf : ⌊x⌋ = m)
    (h2 : ⌊(x - m) * 100 + 1 / 2⌋ = (n : ℤ)) : paisePart x = n := by
  unfold paisePart jsRound
  rw [abs_of_nonneg hx, hf, h2, Int.toNat_ofNat]

lemma paisePart_le_100 (a : ℚ) : paisePart a ≤ 100 := by
  unfold paisePart jsRound
  have h0 := Int.floor_le |a|
  have h1 := Int.lt_floor_add_one |a|
  have h3 : ⌊(|a| - ⌊|a|⌋) * 100 + 1 / 2⌋ < 101 := by
    rw [Int.floor_lt]
    push_cast
    linarith
  exact Int.toNat_le.mpr (by omega)

/-- C8 counterexample: for `amount = 0.999` the rounded paise value is
`100`, outside the 0–99 range stated by the claim, and the rendering is
`"one hundred paise only"`. -/
theorem amountToWords_paise_counterexample :
    paisePart (999 / 1000) = 100 ∧ ¬ paisePart (999 / 1000) ≤ 99 ∧
      amountToWords (999 / 1000) = "one hundred paise only" := by
  have hp : paisePart (999 / 1000) = 100 :=
    paisePart_eq _ 0 100 (by norm_num) (by norm_num) (by norm_num)
  have hr : rupeesPart (999 / 1000) = 0 :=
    rupeesPart_eq _ 0 (by norm_num) (by norm_num)
  refine ⟨hp, by simp [hp], ?_⟩
  simp only [amountToWords, hr, hp,
    if_neg (show ¬((999 / 1000 : ℚ) < 0) by norm_num)]
  decide

/-- C8 (amended): for every amount the rendering carries the rupee part and
a rounded paise part lying in 0–100 (100 occurs when the fractional rupee
part rounds up to a whole rupee), is suffixed with `" only"`, pluralises
`"rupee"`, joins rupees and paise with `"and"`, uses the Indian scale, and
renders a zero amount as exactly `"zero rupees only"`. -/
theorem amountToWords_spec :
    (∀ a : ℚ, paisePart a ≤ 100) ∧
    (∀ a : ℚ, ∃ s, amountToWords a = s ++ " only") ∧
    amountToWords 0 = "zero rupees only" ∧
    amountToWords 1 = "one rupee only" ∧
    amountToWords (5 / 2) = "two rupees and fifty paise only" ∧
    amountToWords 10000000 = "one crore rupees only" ∧
    amountToWords 123456 =
      "one lakh twenty three thousand four hundred fifty six rupees only" := by
  refine ⟨paisePart_le_100, fun a => ⟨_, rfl⟩, ?_, ?_, ?_, ?_, ?_⟩
  · have hr : rupeesPart 0 = 0 :=
      rupeesPart_eq _ 0 (by norm_num) (by norm_num)
    have hp : paisePart 0 = 0 :=
      paisePart_eq _ 0 0 (by norm_num) (by norm_num) (by norm_num)
    simp only [amountToWords, hr, hp,
      if_neg (show ¬((0 : ℚ) < 0) by norm_num)]
    decide
  · have hr : rupeesPart 1 = 1 :=
      rupeesPart_eq _ 1 (by norm_num) (by norm_num)
    have hp : paisePart 1 = 0 :=
      paisePart_eq _ 1 0 (by norm_num) (by norm_num) (by norm_num)
    simp only [amountToWords, hr, hp,
      if_neg (show ¬((1 : ℚ) < 0) by norm_num)]
    decide
  · have hr : rupeesPart (5 / 2) = 2 :=
      rupeesPart_eq _ 2 (by norm_num) (by norm_num)
    have hp : paisePart (5 / 2) = 50 :=
      paisePart_eq _ 2 50 (by norm_num) (by norm_num) (by norm_num)
    simp only [amountToWords, hr, hp,
      if_neg (show ¬((5 / 2 : ℚ) < 0) by norm_num)]
    decide
  · have hr : rupeesPart 10000000 = 10000000 :=
      rupeesPart_eq _ 10000000 (by norm_num) (by norm_num)
    have hp : paisePart 10000000 = 0 :=
      paisePart_eq _ 10000000 0 (by norm_num) (by norm_num) (by norm_num)
    simp only [amountToWords, hr, hp,
      if_neg (show ¬((10000000 : ℚ) < 0) by norm_num)]
    decide
  · have hr : rupeesPart 123456 = 123456 :=
      rupeesPart_eq _ 123456 (by norm_num) (by norm_num)
    have hp : paisePart 123456 = 0 :=
      paisePart_eq _ 123456 0 (by norm_num) (by norm_num) (by norm_num)
    simp only [amountToWords, hr, hp,
      if_neg (show ¬((123456 : ℚ) < 0) by norm_num)]
    decide

end Payvlo
